import Mathlib

/-!
# Verification of the Ticket-Analyzer similarity engine

Shallow embedding of `src/Ollamatest.py` (class `TicketAnalyzer`).

Modelling conventions:
* Backend (HTTP) calls are modelled by an oracle mapping the attempt index to
  the outcome of that attempt.  `asyncio.gather` returns results in the order
  the tasks were passed, so the settled results of the fan-out are modelled as a
  list in snapshot enumeration order, one oracle per ticket position.
* Python strings are Lean `String`s; `str.splitlines`, `str.replace`,
  `str.strip`, `str.lower` and `str.startswith` are embedded below over the
  character lists.  `float(...)` is embedded as an exact decimal-literal
  parser into `Score` (mantissa and power-of-ten exponent); the similarity
  comparison against the 0.7 threshold is the exact rational comparison.
* Each retried call site returns a `RunResult`: the produced value, the list
  of timeout budgets of the attempts actually issued, and the list of pauses
  slept between attempts.
-/

namespace TicketAnalyzer

/-- Python `str.splitlines` restricted to the line breaks `\n`, `\r\n`, `\r`
(the only ones found in replies to this program): no trailing empty line after a
final line break, and `""` splits to `[]`. Worker on character lists. -/
def splitlinesAux : List Char → List Char → List String
  | [], acc => if acc.isEmpty then [] else [String.mk acc.reverse]
  | '\r' :: '\n' :: rest, acc => String.mk acc.reverse :: splitlinesAux rest []
  | '\r' :: rest, acc => String.mk acc.reverse :: splitlinesAux rest []
  | '\n' :: rest, acc => String.mk acc.reverse :: splitlinesAux rest []
  | c :: rest, acc => splitlinesAux rest (c :: acc)

/-- Python `str.splitlines` on a string. -/
def splitlines (s : String) : List String := splitlinesAux s.data []

/-- Worker for Python `line.replace(pat, "")`: removes every non-overlapping
occurrence of `pat`, scanning left to right.  The `Nat` argument counts
characters of a matched occurrence still to be discarded. -/
def removeAllGo (pat : List Char) : List Char → Nat → List Char
  | [], _ => []
  | _ :: rest, skip + 1 => removeAllGo pat rest skip
  | c :: rest, 0 =>
    if pat.isPrefixOf (c :: rest) && !pat.isEmpty then
      removeAllGo pat rest (pat.length - 1)
    else
      c :: removeAllGo pat rest 0

/-- Python `s.replace(pat, "")`. -/
def removeAll (s pat : String) : String := String.mk (removeAllGo pat.data s.data 0)

/-- The whitespace characters Python `str.strip()` removes (ASCII range; the
grammar labels and category vocabulary of the program are ASCII). -/
def isPySpace (c : Char) : Bool :=
  c = ' ' || c = '\t' || c = '\n' || c = '\r' || c = '\x0b' || c = '\x0c'

/-- Python `s.strip()`. -/
def pyStrip (s : String) : String :=
  String.mk (((s.data.dropWhile isPySpace).reverse.dropWhile isPySpace).reverse)

/-- Python `s.startswith(pre)`. -/
def pyStartsWith (s pre : String) : Bool := pre.data.isPrefixOf s.data

/-- ASCII lowercasing of one character (Python `str.lower` on the ASCII
texts the program compares). -/
def lowerChar (c : Char) : Char :=
  if 65 ≤ c.toNat && c.toNat ≤ 90 then Char.ofNat (c.toNat + 32) else c

/-- Python `s.lower()`. -/
def pyLower (s : String) : String := String.mk (s.data.map lowerChar)

/-- An exactly-represented decimal number `mant / 10 ^ exp`, the result of
parsing a similarity score.  The source holds it as a Python float; scores in
the response grammar of the program are short decimal literals, represented here
exactly. -/
structure Score where
  mant : Int
  exp : Nat
deriving DecidableEq, Repr

/-- The rational value of a parsed score. -/
def Score.toRat (s : Score) : ℚ := (s.mant : ℚ) / (10 : ℚ) ^ s.exp

/-- `SIMILARITY_THRESHOLD = 0.7` (class constant). -/
def SIMILARITY_THRESHOLD : ℚ := 7 / 10

/-- The comparison `similarity_score > self.SIMILARITY_THRESHOLD`, computed
exactly on the decimal representation. -/
def Score.gtThreshold (s : Score) : Bool := decide (7 * (10 : Int) ^ s.exp < 10 * s.mant)

/-- `MAX_TOKENS = 100` (class constant). -/
def MAX_TOKENS : Nat := 100

/-- `TEMPERATURE = 0.2` (class constant), as an exact decimal. -/
def TEMPERATURE : Score := ⟨2, 1⟩

/-- Digit string to its numeric value (most significant first). -/
def digitsToNat (cs : List Char) : Nat :=
  cs.foldl (fun acc c => acc * 10 + (c.toNat - '0'.toNat)) 0

/-- Python `float(s)` on the shapes the replies of this program use: optional sign,
then decimal digits with an optional fractional part (`0.85`, `-3`, `5.`,
`.5`).  Any other text fails, as `float` raises there; the failure is `none`,
mirroring the `except` that maps it to an absent score. -/
def parseDecimalCore (cs : List Char) : Option Score :=
  let (sign, rest) :=
    match cs with
    | '-' :: r => ((-1 : Int), r)
    | '+' :: r => ((1 : Int), r)
    | r => ((1 : Int), r)
  let intPart := rest.takeWhile Char.isDigit
  let rest2 := rest.dropWhile Char.isDigit
  match rest2 with
  | [] => if intPart.isEmpty then none else some ⟨sign * digitsToNat intPart, 0⟩
  | '.' :: frac =>
    if frac.all Char.isDigit && !(intPart.isEmpty && frac.isEmpty) then
      some ⟨sign * digitsToNat (intPart ++ frac), frac.length⟩
    else none
  | _ => none

/-- Python `float(s)` (on strings already stripped by the caller, as the
source always does `.strip()` first). -/
def parseDecimal (s : String) : Option Score := parseDecimalCore s.data

/-! ## Comparison response parsing (`find_similar_tickets`, lines 181–191)

The loop body
```
for line in response_text.splitlines():
    if line.startswith("SIMILARITY:"):
        try: similarity_score = float(line.replace("SIMILARITY:", "").strip())
        except Exception: similarity_score = None
    if line.startswith("SOLUTION:"):
        solution = line.replace("SOLUTION:", "").strip()
```
is a left fold over the lines of the reply, each matching line overwriting the
field. -/

/-- One iteration of the parsing loop of `find_similar_tickets`. -/
def parseCompStep (acc : Option Score × Option String) (line : String) :
    Option Score × Option String :=
  let score :=
    if pyStartsWith line "SIMILARITY:" then parseDecimal (pyStrip (removeAll line "SIMILARITY:"))
    else acc.1
  let solution :=
    if pyStartsWith line "SOLUTION:" then some (pyStrip (removeAll line "SOLUTION:"))
    else acc.2
  (score, solution)

/-- The comparison-response parser of `find_similar_tickets`: the reply is
stripped (`result.get("response", "").strip()`), split into lines, and folded
with `parseCompStep` starting from two absent fields. -/
def parseComparison (raw : String) : Option Score × Option String :=
  (splitlines (pyStrip raw)).foldl parseCompStep (none, none)

/-- Modelled from the spec: the parser §8 describes, which takes the score
from the FIRST line beginning with `SIMILARITY:` and the solution from the
FIRST line beginning with `SOLUTION:` (the loop in the source instead lets later
matching lines overwrite earlier ones). -/
def parseComparisonSpecFirst (raw : String) : Option Score × Option String :=
  let lines := splitlines (pyStrip raw)
  ((lines.find? (fun l => pyStartsWith l "SIMILARITY:")).bind
      (fun l => parseDecimal (pyStrip (removeAll l "SIMILARITY:"))),
   (lines.find? (fun l => pyStartsWith l "SOLUTION:")).map
      (fun l => pyStrip (removeAll l "SOLUTION:")))

/-- One entry of the `similar_tickets` list built by `find_similar_tickets`:
the dict `{"id": ..., "description": ..., "solution": ..., "similarity": ...}`. -/
structure MatchDecision where
  id : String
  description : String
  solution : Option String
  similarity : Score
deriving DecidableEq, Repr

/-- The decision `find_similar_tickets` takes for the ticket at snapshot
position `i`: `oracle i` is the settled outcome of the backend
call — `none` when `fetch_similarity` exhausted its retries and returned
`None`, `some raw` when it returned a reply whose `response` field parsed to
`raw` (a missing field is the empty string, via `result.get("response", "")`).
A dict is appended iff the parsed score is present and exceeds the
threshold. -/
def decide_ticket (oracle : Nat → Option String) (i : Nat) (t : String × String) :
    Option MatchDecision :=
  match oracle i with
  | none => none
  | some raw =>
    match (parseComparison raw).1 with
    | none => none
    | some s =>
      if s.gtThreshold then some ⟨t.1, t.2, (parseComparison raw).2, s⟩ else none

/-- `find_similar_tickets` (lines 158–200) over a store snapshot of
`(id, description)` pairs.  Returns the decision list and the number of
backend comparison calls issued (one `fetch_similarity` task per snapshot
ticket; zero on the `if not tickets` early return).  `asyncio.gather`
preserves task order, so the result loop runs in snapshot enumeration
order. -/
def find_similar_tickets (oracle : Nat → Option String)
    (snapshot : List (String × String)) : List MatchDecision × Nat :=
  if snapshot = [] then ([], 0)
  else ((snapshot.enum).filterMap (fun p => decide_ticket oracle p.1 p.2), snapshot.length)

/-! ## Retried call sites

The run of each call site is recorded as the value produced, the timeout budget of
every attempt actually issued, and the pauses slept between attempts. -/

/-- Trace of the execution of one call site. -/
structure RunResult (α : Type) where
  result : α
  calls : List Nat
  sleeps : List Nat
deriving DecidableEq, Repr

/-- Outcome of one `session.post` attempt inside `fetch_similarity`: a reply
(`raw` is the `response` field of the json, `""` when missing), a timeout
(`asyncio.TimeoutError`), a failed connection, or any other error — the
source catches the last two in the same `except Exception` arm. -/
inductive CallOutcome
  | success (raw : String)
  | timeout
  | unreachable
  | backendError (msg : String)
deriving DecidableEq, Repr

/-- `fetch_similarity` (lines 117–156): `for attempt in range(max_retries)`,
one `session.post` with `timeout=60` per attempt; on `asyncio.TimeoutError`
or any other exception, sleep 1 and retry while `attempt < max_retries - 1`,
else return `None` for the reply.  `fuel` is the number of attempts still
allowed, so the retry condition `attempt < max_retries - 1` is `fuel ≠ 1`
at the current attempt; `fuel = 0` is the (unreachable for
`max_retries = 3`) loop fall-through. -/
def fetch_similarity_loop (o : Nat → CallOutcome) (attempt : Nat) :
    Nat → RunResult (Option String)
  | 0 => ⟨none, [], []⟩
  | fuel + 1 =>
    match o attempt with
    | .success raw => ⟨some raw, [60], []⟩
    | _ =>
      if fuel = 0 then ⟨none, [60], []⟩
      else
        let r := fetch_similarity_loop o (attempt + 1) fuel
        ⟨r.result, 60 :: r.calls, 1 :: r.sleeps⟩

/-- `fetch_similarity` with `max_retries = 3`, over an oracle giving each
outcome of each attempt. -/
def fetch_similarity (o : Nat → CallOutcome) : RunResult (Option String) :=
  fetch_similarity_loop o 0 3

/-- Replaces an `unreachable` outcome by a `timeout` outcome, to state that
`fetch_similarity` treats the two identically. -/
def timeoutForUnreachable : CallOutcome → CallOutcome
  | .unreachable => .timeout
  | c => c

/-- Outcome of one `requests.post` attempt in `get_solution` /
`get_category`: a reply (`resp` is the `response` field of the json, `none` when
missing or null), `requests.exceptions.Timeout`,
`requests.exceptions.ConnectionError`, or any other exception with its
message. -/
inductive ReqOutcome
  | success (resp : Option String)
  | timeout
  | connectionError
  | otherError (msg : String)
deriving DecidableEq, Repr

/-! ## Category classifier (`get_category`, lines 286–363) -/

/-- The `categories_list` string of `get_category` (lines 287–305), with the
adjacent Python literals concatenated. -/
def categories_list : String :=
  "Hardware, Software, Network, Email, Login/Access, Peripheral, Performance, Security, Printer, Database, "
  ++ "Server, Cloud Services, Backup/Recovery, Application Support, UI/UX Bug, Mobile Device, Internet Connectivity, "
  ++ "Power Supply, Operating System, File System, Permissions, Malware/Virus, Phishing, Patch Management, VPN, DNS, "
  ++ "Firewall, Proxy, Storage, Device Configuration, Account Management, Password Reset, Multi-Factor Authentication, "
  ++ "Licensing, Deployment, Installation, Update Issues, System Crash, Blue Screen, Boot Failure, Slow Boot, "
  ++ "Application Crash, Data Loss, Sync Issues, Drive Mapping, Network Drive, Printer Driver, Monitor Display, "
  ++ "Keyboard/Mouse Issue, Touchscreen Problem, Battery Issue, BIOS/UEFI, Disk Errors, Network Cable Issue, "
  ++ "Wi-Fi Signal Issue, Port Blocked, Email Spam, Email Configuration, Mailbox Full, Shared Folder Issue, "
  ++ "Remote Desktop, Software Compatibility, Software Activation, Virtual Machine Issue, Cloud Sync, SaaS Access, "
  ++ "Hosting Issue, SSL Certificate, Configuration Error, Scheduler Issue, Cron Job, API Error, Integration Issue, "
  ++ "Data Migration, Report Generation, Analytics Error, Dashboard Issue, Backup Disk Full, Restore Failure, "
  ++ "Access Denied, User Provisioning, System Freeze, Thermal Overheating, Resource Exhaustion, Kernel Panic, "
  ++ "Registry Error, Log File Issue, Proxy Authentication, Wireless Adapter, IP Conflict, Bandwidth Throttling, "
  ++ "QoS Issue, Cloud Storage Quota, Cloud Login Issue, Mobile App Crash, Mobile Sync Issue, UX Feedback, "
  ++ "Documentation Error, Unsupported Feature, Version Mismatch, Plugin Error, Browser Compatibility, Cross-Site Error, "
  ++ "Database Timeout, Connection Pool Error, Latency Issue, Packet Loss, Audit Log, Encryption Problem, "
  ++ "Certificate Expired, Compliance Violation"

/-- Python `s.split(",")`: worker. -/
def splitCommaAux : List Char → List Char → List String
  | [], acc => [String.mk acc.reverse]
  | ',' :: rest, acc => String.mk acc.reverse :: splitCommaAux rest []
  | c :: rest, acc => splitCommaAux rest (c :: acc)

/-- Python `s.split(",")`. -/
def splitComma (s : String) : List String := splitCommaAux s.data []

/-- `categories = [c.strip() for c in categories_list.split(",")]`
(line 306). -/
def categories : List String := (splitComma categories_list).map pyStrip

/-- Python `line.split(":", 1)[1]`: the text after the first colon.  The
source indexes `[1]` only on lines the `category:` prefix guard accepted, so
a colon is present there; on a colon-free string this total model gives
`""`. -/
def afterFirstColon (s : String) : String :=
  String.mk ((s.data.dropWhile (fun c => c ≠ ':')).drop 1)

/-- The inner vocabulary loop of `get_category` (lines 339–345): the first
`valid` category with `category_candidate.lower() == valid.lower()` wins; the
`else` arm of the loop falls back to `"Uncategorized"`. -/
def resolveCategory (candidate : String) : String :=
  match categories.find? (fun valid => pyLower candidate == pyLower valid) with
  | some valid => valid
  | none => "Uncategorized"

/-- The line loop of `get_category` (lines 333–348): the first line whose
stripped, lowercased form starts with `"category:"` is resolved (then the
loop breaks); if no line qualifies, `category` keeps its initial
`"Uncategorized"`. -/
def parse_category_lines : List String → String
  | [] => "Uncategorized"
  | line :: rest =>
    if pyStartsWith (pyLower (pyStrip line)) "category:" then
      resolveCategory (pyStrip (afterFirstColon line))
    else parse_category_lines rest

/-- Handling of a received reply in `get_category`: the falsy check
`if not response_data.get("response")` (missing/null/empty reply) yields
`"Uncategorized"`, otherwise the line loop runs on `splitlines`. -/
def parse_category_response (resp : Option String) : String :=
  match resp with
  | none => "Uncategorized"
  | some s => if s = "" then "Uncategorized" else parse_category_lines (splitlines s)

/-- The retry loop of `get_category` (lines 313–363): `requests.post` with
`timeout=60` per attempt; `requests.exceptions.Timeout` sleeps 5 and retries
while `attempt < max_retries - 1` and yields `"Uncategorized"` once
exhausted; `ConnectionError` and any other exception return
`"Uncategorized"` at once.  `fuel` is the number of attempts still allowed;
`fuel = 0` is the loop fall-through, where Python would return `None`
(unreachable for `max_retries = 3`). -/
def get_category_loop (o : Nat → ReqOutcome) (attempt : Nat) :
    Nat → RunResult (Option String)
  | 0 => ⟨none, [], []⟩
  | fuel + 1 =>
    match o attempt with
    | .success resp => ⟨some (parse_category_response resp), [60], []⟩
    | .timeout =>
      if fuel = 0 then ⟨some "Uncategorized", [60], []⟩
      else
        let r := get_category_loop o (attempt + 1) fuel
        ⟨r.result, 60 :: r.calls, 5 :: r.sleeps⟩
    | .connectionError => ⟨some "Uncategorized", [60], []⟩
    | .otherError _ => ⟨some "Uncategorized", [60], []⟩

/-- `get_category` with `max_retries = 3`, over an oracle giving each
outcome of each attempt. -/
def get_category (o : Nat → ReqOutcome) : RunResult (Option String) :=
  get_category_loop o 0 3

/-! ## Solo-solution lookup (`get_solution`, lines 80–115) -/

/-- Handling of a received reply in `get_solution`: the falsy check
`if not response_data.get("response")` yields the empty-response error
string; otherwise the first line starting with `"SOLUTION:"` is returned
with the label removed and stripped, and if no line matches, the whole reply
stripped. -/
def extract_solution (resp : Option String) : String :=
  match resp with
  | none => "Error: Empty response from API"
  | some s =>
    if s = "" then "Error: Empty response from API"
    else
      match (splitlines s).find? (fun l => pyStartsWith l "SOLUTION:") with
      | some line => pyStrip (removeAll line "SOLUTION:")
      | none => pyStrip s

/-- `get_solution` (lines 80–115): a single `requests.post` with
`timeout=60`; `Timeout`, `ConnectionError` and any other exception are
caught and turned into error strings.  No loop surrounds the request, so
only `o 0` is ever consulted. -/
def get_solution (o : Nat → ReqOutcome) : RunResult String :=
  match o 0 with
  | .success resp => ⟨extract_solution resp, [60], []⟩
  | .timeout =>
    ⟨"Error: Request timed out. Please check if Ollama server is running.", [60], []⟩
  | .connectionError =>
    ⟨"Error: Could not connect to Ollama server. Please verify the server is running and accessible.",
      [60], []⟩
  | .otherError msg => ⟨"Error getting solution: " ++ msg, [60], []⟩

/-- Modelled from the spec: the retry wrapper of section 4.2 that the solo-solution
lookup is claimed to perform internally — "up to 3 attempts total, each
attempt under its own timeout (60 time-units)", with "exhausting retries
yields a typed failure" (`none` here).  Missing from the source: `get_solution`
has no retry loop; this definition follows the words of the spec for comparison. -/
def get_solution_spec_retry_loop (o : Nat → ReqOutcome) (attempt : Nat) :
    Nat → RunResult (Option String)
  | 0 => ⟨none, [], []⟩
  | fuel + 1 =>
    match o attempt with
    | .success resp => ⟨some (extract_solution resp), [60], []⟩
    | _ =>
      if fuel = 0 then ⟨none, [60], []⟩
      else
        let r := get_solution_spec_retry_loop o (attempt + 1) fuel
        ⟨r.result, 60 :: r.calls, r.sleeps⟩

/-- The spec-described retried solo-solution lookup, 3 attempts. -/
def get_solution_spec_retry (o : Nat → ReqOutcome) : RunResult (Option String) :=
  get_solution_spec_retry_loop o 0 3

/-! ## Ticket store (`add_ticket`, lines 213–251) -/

/-- One row of the `tickets` table. -/
structure Ticket where
  id : String
  description : String
  model : String
  categories : String
  solution : String
  timestamp : String
  similarity_group : Int
deriving DecidableEq, Repr

/-- `add_ticket` (lines 213–251): `SELECT * FROM tickets WHERE id = ?`; if a
row exists, print an error and return `False` with nothing written;
otherwise insert the row (with `similarity_group` 1) and return `True`.
`solution` is the value the similarity / solo-solution pipeline produced for
the ticket — its computation issues backend calls but never writes the
store. -/
def add_ticket (store : List Ticket)
    (ticket_id description model category solution timestamp : String) :
    Bool × List Ticket :=
  if store.any (fun t => t.id == ticket_id) then (false, store)
  else (true, store ++ [⟨ticket_id, description, model, category, solution, timestamp, 1⟩])

/-! ## Helper lemmas -/

theorem gtThreshold_iff (s : Score) :
    s.gtThreshold = true ↔ SIMILARITY_THRESHOLD < s.toRat := by
  have hpow : (0 : ℚ) < (10 : ℚ) ^ s.exp := by positivity
  rw [Score.gtThreshold, decide_eq_true_iff, Score.toRat, SIMILARITY_THRESHOLD,
    div_lt_div_iff₀ (by norm_num) hpow]
  constructor
  · intro h
    have h2 : ((7 * (10 : Int) ^ s.exp : Int) : ℚ) < ((10 * s.mant : Int) : ℚ) := by
      exact_mod_cast h
    push_cast at h2
    linarith
  · intro h
    have h2 : ((7 * (10 : Int) ^ s.exp : Int) : ℚ) < ((10 * s.mant : Int) : ℚ) := by
      push_cast
      linarith
    exact_mod_cast h2

theorem fetch_loop_calls_le (o : Nat → CallOutcome) (attempt fuel : Nat) :
    (fetch_similarity_loop o attempt fuel).calls.length ≤ fuel := by
  induction fuel generalizing attempt with
  | zero => simp [fetch_similarity_loop]
  | succ n ih =>
    rw [fetch_similarity_loop]
    cases o attempt with
    | success raw => simp
    | timeout | unreachable | backendError =>
      by_cases hn : n = 0
      · simp [hn]
      · simp only [if_neg hn, List.length_cons]
        exact Nat.succ_le_succ (ih (attempt + 1))

theorem fetch_loop_calls_pos (o : Nat → CallOutcome) (attempt fuel : Nat)
    (h : 0 < fuel) : 0 < (fetch_similarity_loop o attempt fuel).calls.length := by
  obtain ⟨n, rfl⟩ := Nat.exists_eq_succ_of_ne_zero (Nat.pos_iff_ne_zero.mp h)
  rw [fetch_similarity_loop]
  cases o attempt with
  | success raw => simp
  | timeout | unreachable | backendError =>
    by_cases hn : n = 0
    · simp [hn]
    · simp [if_neg hn]

theorem fetch_loop_calls_eq (o : Nat → CallOutcome) (attempt fuel : Nat) :
    (fetch_similarity_loop o attempt fuel).calls =
      List.replicate (fetch_similarity_loop o attempt fuel).calls.length 60 := by
  induction fuel generalizing attempt with
  | zero => simp [fetch_similarity_loop]
  | succ n ih =>
    rw [fetch_similarity_loop]
    cases o attempt with
    | success raw => simp
    | timeout | unreachable | backendError =>
      by_cases hn : n = 0
      · simp [hn]
      · simp only [if_neg hn, List.length_cons, List.replicate_succ, List.cons.injEq,
          true_and]
        exact ih (attempt + 1)

theorem fetch_loop_sleeps_eq (o : Nat → CallOutcome) (attempt fuel : Nat) :
    (fetch_similarity_loop o attempt fuel).sleeps =
      List.replicate ((fetch_similarity_loop o attempt fuel).calls.length - 1) 1 := by
  induction fuel generalizing attempt with
  | zero => simp [fetch_similarity_loop]
  | succ n ih =>
    rw [fetch_similarity_loop]
    cases o attempt with
    | success raw => simp
    | timeout | unreachable | backendError =>
      by_cases hn : n = 0
      · simp [hn]
      · simp only [if_neg hn, List.length_cons, Nat.add_sub_cancel]
        have hpos := fetch_loop_calls_pos o (attempt + 1) n (Nat.pos_of_ne_zero hn)
        obtain ⟨m, hm⟩ := Nat.exists_eq_succ_of_ne_zero (Nat.pos_iff_ne_zero.mp hpos)
        rw [ih (attempt + 1), hm, List.replicate_succ, Nat.succ_sub_one]

theorem fetch_loop_unreachable_as_timeout (o : Nat → CallOutcome) (attempt fuel : Nat) :
    fetch_similarity_loop (fun n => timeoutForUnreachable (o n)) attempt fuel =
      fetch_similarity_loop o attempt fuel := by
  induction fuel generalizing attempt with
  | zero => rfl
  | succ n ih =>
    rw [fetch_similarity_loop, fetch_similarity_loop]
    cases o attempt with
    | success raw => simp [timeoutForUnreachable]
    | timeout | unreachable | backendError =>
      all_goals
        have hrec := ih (attempt + 1)
        by_cases hn : n = 0
        · simp [timeoutForUnreachable, hn]
        · simp only [timeoutForUnreachable] at hrec ⊢
          simp [hn, hrec]

theorem fetch_loop_exhaust (o : Nat → CallOutcome) (attempt fuel : Nat)
    (h : ∀ i, attempt ≤ i → i < attempt + fuel → ∀ raw, o i ≠ .success raw) :
    (fetch_similarity_loop o attempt fuel).result = none := by
  induction fuel generalizing attempt with
  | zero => simp [fetch_similarity_loop]
  | succ n ih =>
    rw [fetch_similarity_loop]
    cases ho : o attempt with
    | success raw => exact absurd ho (h attempt le_rfl (by omega) raw)
    | timeout | unreachable | backendError =>
      all_goals
        by_cases hn : n = 0
        · simp [hn]
        · simp only [if_neg hn]
          exact ih (attempt + 1) (fun i h1 h2 => h i (by omega) (by omega))

theorem resolveCategory_cases (cand : String) :
    resolveCategory cand = "Uncategorized" ∨
      (resolveCategory cand ∈ categories ∧ pyLower (resolveCategory cand) = pyLower cand) := by
  unfold resolveCategory
  cases hf : categories.find? (fun valid => pyLower cand == pyLower valid) with
  | none => exact Or.inl rfl
  | some v =>
    have hp := List.find?_some hf
    have heq : pyLower cand = pyLower v := eq_of_beq (by simpa using hp)
    have hmem : v ∈ categories := List.mem_of_find?_eq_some hf
    exact Or.inr ⟨hmem, heq.symm⟩

theorem parse_category_lines_eq_find (lines : List String) :
    parse_category_lines lines =
      match lines.find? (fun l => pyStartsWith (pyLower (pyStrip l)) "category:") with
      | none => "Uncategorized"
      | some line => resolveCategory (pyStrip (afterFirstColon line)) := by
  induction lines with
  | nil => rfl
  | cons line rest ih =>
    rw [parse_category_lines, List.find?_cons]
    by_cases hm : pyStartsWith (pyLower (pyStrip line)) "category:"
    · simp [hm]
    · simp only [hm, if_neg, Bool.false_eq_true, ite_false, cond_false]
      exact ih

theorem parse_category_lines_mem (lines : List String) :
    parse_category_lines lines ∈ categories ∨ parse_category_lines lines = "Uncategorized" := by
  induction lines with
  | nil => exact Or.inr rfl
  | cons line rest ih =>
    rw [parse_category_lines]
    by_cases hm : pyStartsWith (pyLower (pyStrip line)) "category:"
    · rw [if_pos hm]
      rcases resolveCategory_cases (pyStrip (afterFirstColon line)) with h | h
      · exact Or.inr h
      · exact Or.inl h.1
    · rw [if_neg hm]
      exact ih

theorem parse_category_response_mem (resp : Option String) :
    parse_category_response resp ∈ categories ∨ parse_category_response resp = "Uncategorized" := by
  cases resp with
  | none => exact Or.inr rfl
  | some s =>
    rw [parse_category_response]
    by_cases hs : s = ""
    · rw [if_pos hs]; exact Or.inr rfl
    · rw [if_neg hs]; exact parse_category_lines_mem (splitlines s)

theorem cat_loop_result_some (o : Nat → ReqOutcome) (attempt fuel : Nat) :
    ∃ c, (get_category_loop o attempt (fuel + 1)).result = some c ∧
      (c ∈ categories ∨ c = "Uncategorized") := by
  induction fuel generalizing attempt with
  | zero =>
    rw [get_category_loop]
    cases o attempt with
    | success resp => exact ⟨parse_category_response resp, rfl, parse_category_response_mem resp⟩
    | timeout => exact ⟨"Uncategorized", by simp, Or.inr rfl⟩
    | connectionError => exact ⟨"Uncategorized", rfl, Or.inr rfl⟩
    | otherError msg => exact ⟨"Uncategorized", rfl, Or.inr rfl⟩
  | succ n ih =>
    rw [get_category_loop]
    cases o attempt with
    | success resp => exact ⟨parse_category_response resp, rfl, parse_category_response_mem resp⟩
    | timeout =>
      simp only [Nat.succ_ne_zero, if_neg]
      obtain ⟨c, hc, hmem⟩ := ih (attempt + 1)
      exact ⟨c, hc, hmem⟩
    | connectionError => exact ⟨"Uncategorized", rfl, Or.inr rfl⟩
    | otherError msg => exact ⟨"Uncategorized", rfl, Or.inr rfl⟩

theorem cat_loop_calls_le (o : Nat → ReqOutcome) (attempt fuel : Nat) :
    (get_category_loop o attempt fuel).calls.length ≤ fuel := by
  induction fuel generalizing attempt with
  | zero => simp [get_category_loop]
  | succ n ih =>
    rw [get_category_loop]
    cases o attempt with
    | success resp => simp
    | timeout =>
      by_cases hn : n = 0
      · simp [hn]
      · simp only [if_neg hn, List.length_cons]
        exact Nat.succ_le_succ (ih (attempt + 1))
    | connectionError => simp
    | otherError msg => simp

theorem cat_loop_calls_pos (o : Nat → ReqOutcome) (attempt fuel : Nat)
    (h : 0 < fuel) : 0 < (get_category_loop o attempt fuel).calls.length := by
  obtain ⟨n, rfl⟩ := Nat.exists_eq_succ_of_ne_zero (Nat.pos_iff_ne_zero.mp h)
  rw [get_category_loop]
  cases o attempt with
  | success resp => simp
  | timeout =>
    by_cases hn : n = 0
    · simp [hn]
    · simp [if_neg hn]
  | connectionError => simp
  | otherError msg => simp

theorem cat_loop_calls_eq (o : Nat → ReqOutcome) (attempt fuel : Nat) :
    (get_category_loop o attempt fuel).calls =
      List.replicate (get_category_loop o attempt fuel).calls.length 60 := by
  induction fuel generalizing attempt with
  | zero => simp [get_category_loop]
  | succ n ih =>
    rw [get_category_loop]
    cases o attempt with
    | success resp => simp
    | timeout =>
      by_cases hn : n = 0
      · simp [hn]
      · simp only [if_neg hn, List.length_cons, List.replicate_succ, List.cons.injEq,
          true_and]
        exact ih (attempt + 1)
    | connectionError => simp
    | otherError msg => simp

theorem cat_loop_sleeps_eq (o : Nat → ReqOutcome) (attempt fuel : Nat) :
    (get_category_loop o attempt fuel).sleeps =
      List.replicate ((get_category_loop o attempt fuel).calls.length - 1) 5 := by
  induction fuel generalizing attempt with
  | zero => simp [get_category_loop]
  | succ n ih =>
    rw [get_category_loop]
    cases o attempt with
    | success resp => simp
    | timeout =>
      by_cases hn : n = 0
      · simp [hn]
      · simp only [if_neg hn, List.length_cons, Nat.add_sub_cancel]
        have hpos := cat_loop_calls_pos o (attempt + 1) n (Nat.pos_of_ne_zero hn)
        obtain ⟨m, hm⟩ := Nat.exists_eq_succ_of_ne_zero (Nat.pos_iff_ne_zero.mp hpos)
        rw [ih (attempt + 1), hm, List.replicate_succ, Nat.succ_sub_one]
    | connectionError => simp
    | otherError msg => simp

theorem cat_loop_pre_timeout (o : Nat → ReqOutcome) (attempt fuel : Nat) :
    ∀ i, attempt ≤ i →
      i + 1 < attempt + (get_category_loop o attempt fuel).calls.length →
      o i = .timeout := by
  induction fuel generalizing attempt with
  | zero =>
    intro i h1 h2
    rw [get_category_loop] at h2
    simp at h2
    omega
  | succ n ih =>
    intro i h1 h2
    rw [get_category_loop] at h2
    cases ho : o attempt with
    | success resp =>
      rw [ho] at h2
      simp at h2
      omega
    | timeout =>
      rw [ho] at h2
      by_cases hn : n = 0
      · rw [if_pos hn] at h2
        simp at h2
        omega
      · rw [if_neg hn] at h2
        simp only [List.length_cons] at h2
        rcases Nat.eq_or_lt_of_le h1 with heq | hlt
        · rw [← heq]
          exact ho
        · exact ih (attempt + 1) i hlt (by omega)
    | connectionError =>
      rw [ho] at h2
      simp at h2
      omega
    | otherError msg =>
      rw [ho] at h2
      simp at h2
      omega

theorem decide_ticket_eq_some_iff (oracle : Nat → Option String) (i : Nat)
    (t : String × String) (d : MatchDecision) :
    decide_ticket oracle i t = some d ↔
      ∃ raw, oracle i = some raw ∧ (parseComparison raw).1 = some d.similarity ∧
        (parseComparison raw).2 = d.solution ∧ d.similarity.gtThreshold = true ∧
        d.id = t.1 ∧ d.description = t.2 := by
  obtain ⟨did, ddesc, dsol, dsim⟩ := d
  cases ho : oracle i with
  | none => simp [decide_ticket, ho]
  | some raw =>
    cases hp : (parseComparison raw).1 with
    | none =>
      simp only [decide_ticket, ho, hp]
      constructor
      · intro h
        cases h
      · rintro ⟨raw2, hraw2, h1, _⟩
        obtain rfl : raw = raw2 := Option.some.inj hraw2
        rw [hp] at h1
        cases h1
    | some s =>
      simp only [decide_ticket, ho, hp]
      by_cases hgt : s.gtThreshold
      · rw [if_pos hgt]
        constructor
        · intro h
          have h' : MatchDecision.mk t.1 t.2 (parseComparison raw).2 s =
              ⟨did, ddesc, dsol, dsim⟩ := Option.some.inj h
          cases h'
          exact ⟨raw, rfl, hp, rfl, hgt, rfl, rfl⟩
        · rintro ⟨raw2, hraw2, h1, h2, hgt2, hid, hdesc⟩
          obtain rfl : raw = raw2 := Option.some.inj hraw2
          rw [hp] at h1
          obtain rfl : s = dsim := Option.some.inj h1
          rw [h2, hid, hdesc]
      · rw [if_neg hgt]
        constructor
        · intro h
          cases h
        · rintro ⟨raw2, hraw2, h1, h2, hgt2, hid, hdesc⟩
          obtain rfl : raw = raw2 := Option.some.inj hraw2
          rw [hp] at h1
          obtain rfl : s = dsim := Option.some.inj h1
          exact absurd hgt2 hgt

theorem decide_ticket_proj (oracle : Nat → Option String) (i : Nat)
    (t : String × String) (d : MatchDecision)
    (h : decide_ticket oracle i t = some d) : (d.id, d.description) = t := by
  rw [decide_ticket_eq_some_iff] at h
  obtain ⟨raw, _, _, _, _, hid, hdesc⟩ := h
  rw [hid, hdesc]

theorem filterMap_decide_sublist (oracle : Nat → Option String)
    (l : List (Nat × (String × String))) :
    ((l.filterMap (fun p => decide_ticket oracle p.1 p.2)).map
        (fun d => (d.id, d.description))).Sublist (l.map Prod.snd) := by
  induction l with
  | nil => simp
  | cons a rest ih =>
    rw [List.filterMap_cons, List.map_cons]
    cases hfa : decide_ticket oracle a.1 a.2 with
    | none => exact ih.cons a.2
    | some d =>
      rw [List.map_cons, decide_ticket_proj oracle a.1 a.2 d hfa]
      exact ih.cons₂ a.2

theorem foldl_parseCompStep_eq (lines : List String)
    (acc : Option Score × Option String) :
    lines.foldl parseCompStep acc =
      ((match (lines.filter (fun l => pyStartsWith l "SIMILARITY:")).getLast? with
        | none => acc.1
        | some l => parseDecimal (pyStrip (removeAll l "SIMILARITY:"))),
       (match (lines.filter (fun l => pyStartsWith l "SOLUTION:")).getLast? with
        | none => acc.2
        | some l => some (pyStrip (removeAll l "SOLUTION:")))) := by
  induction lines using List.reverseRecOn with
  | nil => simp
  | append_singleton body line ih =>
    rw [List.foldl_append, List.foldl_cons, List.foldl_nil, ih]
    rw [List.filter_append, List.filter_append]
    by_cases h1 : pyStartsWith line "SIMILARITY:" <;>
      by_cases h2 : pyStartsWith line "SOLUTION:" <;>
        simp [parseCompStep, h1, h2, List.getLast?_concat]

/-! ## Claims -/

/-- C1: In a `find_similar_tickets` run, a decision for a stored ticket is in
the returned list iff the settled backend reply for that ticket has a parsed
similarity score that is present and strictly greater than the 0.7 threshold
(the decision carrying the id, description of that ticket, parsed solution and
score); an absent score, or one equal to or below 0.7, excludes the
ticket. -/
theorem mem_find_similar_iff (oracle : Nat → Option String)
    (snapshot : List (String × String)) (d : MatchDecision) :
    d ∈ (find_similar_tickets oracle snapshot).1 ↔
      ∃ i raw, snapshot[i]? = some (d.id, d.description) ∧ oracle i = some raw ∧
        (parseComparison raw).1 = some d.similarity ∧
        (parseComparison raw).2 = d.solution ∧
        SIMILARITY_THRESHOLD < d.similarity.toRat := by
  unfold find_similar_tickets
  by_cases hs : snapshot = []
  · subst hs
    simp
  · rw [if_neg hs]
    simp only
    rw [List.mem_filterMap]
    constructor
    · rintro ⟨⟨i, t⟩, hmem, hdec⟩
      rw [decide_ticket_eq_some_iff] at hdec
      obtain ⟨raw, horacle, h1, h2, hgt, hid, hdesc⟩ := hdec
      refine ⟨i, raw, ?_, horacle, h1, h2, (gtThreshold_iff _).mp hgt⟩
      have hget := List.mk_mem_enum_iff_getElem?.mp hmem
      rw [hget, hid, hdesc]
    · rintro ⟨i, raw, hget, horacle, h1, h2, hgtQ⟩
      refine ⟨(i, (d.id, d.description)), List.mk_mem_enum_iff_getElem?.mpr hget, ?_⟩
      rw [decide_ticket_eq_some_iff]
      exact ⟨raw, horacle, h1, h2, (gtThreshold_iff _).mpr hgtQ, rfl, rfl⟩

/-- C2 counterexample: on a reply with two `SIMILARITY:` lines and two
`SOLUTION:` lines, the source parser keeps the LAST matching line of each
kind (here: a failed numeric parse erases the earlier valid score, and the
solution is taken from the later line), while the first-line parser the
claim describes yields the score 0.9 of the first line and solution "A". -/
theorem parseComparison_not_first_line :
    parseComparison "SIMILARITY: 0.9\nSIMILARITY: oops\nSOLUTION: A\nSOLUTION: B" =
      (none, some "B") ∧
    parseComparisonSpecFirst "SIMILARITY: 0.9\nSIMILARITY: oops\nSOLUTION: A\nSOLUTION: B" =
      (some ⟨9, 1⟩, some "A") ∧
    ((none : Option Score), (some "B" : Option String)) ≠ (some ⟨9, 1⟩, some "A") := by
  refine ⟨by decide, by decide, by decide⟩

/-- C2 (amended): the comparison-response parser extracts the similarity
score from the LAST line beginning with `SIMILARITY:` (absent when the
numeric parse of that line fails or no such line exists) and the solution from the
LAST line beginning with `SOLUTION:` (absent when no such line exists); it is
a total function, so no malformed or partial text makes it raise. -/
theorem parseComparison_last_line (raw : String) :
    (parseComparison raw).1 =
      (match ((splitlines (pyStrip raw)).filter
          (fun l => pyStartsWith l "SIMILARITY:")).getLast? with
        | none => none
        | some l => parseDecimal (pyStrip (removeAll l "SIMILARITY:"))) ∧
    (parseComparison raw).2 =
      (match ((splitlines (pyStrip raw)).filter
          (fun l => pyStartsWith l "SOLUTION:")).getLast? with
        | none => none
        | some l => some (pyStrip (removeAll l "SOLUTION:"))) := by
  unfold parseComparison
  rw [foldl_parseCompStep_eq]
  exact ⟨rfl, rfl⟩

/-- C3: On the comparison fan-out path, each backend call runs at most 3
attempts, every attempt under a 60-time-unit timeout, with a 1-time-unit
pause between consecutive attempts; an Unreachable outcome is retried
exactly as a Timeout (replacing one by the other changes nothing); a call
whose 3 attempts all fail settles to `none` (no exception: the function is
total), and a `none`-settled call contributes no decision. -/
theorem fetch_similarity_retry_policy (o : Nat → CallOutcome) :
    (fetch_similarity o).calls.length ≤ 3 ∧
    (fetch_similarity o).calls =
      List.replicate (fetch_similarity o).calls.length 60 ∧
    (fetch_similarity o).sleeps =
      List.replicate ((fetch_similarity o).calls.length - 1) 1 ∧
    fetch_similarity (fun n => timeoutForUnreachable (o n)) = fetch_similarity o ∧
    ((∀ i, i < 3 → ∀ raw, o i ≠ .success raw) → (fetch_similarity o).result = none) ∧
    (∀ (oracle : Nat → Option String) i t, oracle i = none →
      decide_ticket oracle i t = none) := by
  refine ⟨fetch_loop_calls_le o 0 3, fetch_loop_calls_eq o 0 3,
    fetch_loop_sleeps_eq o 0 3, fetch_loop_unreachable_as_timeout o 0 3, ?_, ?_⟩
  · intro h
    exact fetch_loop_exhaust o 0 3 (fun i h1 h2 raw => h i (by omega) raw)
  · intro oracle i t h
    simp [decide_ticket, h]

/-- C4: With an empty store snapshot, `find_similar_tickets` returns the
empty decision list and issues zero backend calls (the second component
counts the fan-out tasks created). -/
theorem find_similar_empty (oracle : Nat → Option String) :
    find_similar_tickets oracle [] = ([], 0) := by
  simp [find_similar_tickets]

/-- C5 counterexample: a reply whose only label line is `category: network`
contains no line beginning with `CATEGORY:`, yet the classifier resolves it
(case-insensitively) to the vocabulary member `"Network"` instead of a
sentinel; and the sentinel the code uses for an out-of-vocabulary value is
`"Uncategorized"`, not `"uncategorized"`. -/
theorem get_category_counterexample :
    (get_category (fun _ => .success (some "category: network"))).result =
      some "Network" ∧
    (∀ l ∈ splitlines "category: network", pyStartsWith l "CATEGORY:" = false) ∧
    "Network" ≠ "uncategorized" ∧
    (get_category (fun _ => .success (some "CATEGORY: Frobnication"))).result =
      some "Uncategorized" ∧
    "Uncategorized" ≠ "uncategorized" := by
  refine ⟨by decide, by decide, by decide, by decide, by decide⟩

/-- C5 (amended): the classifier resolves the value after the colon of the
first line whose stripped form begins, case-insensitively, with
`category:`, against the fixed vocabulary by case-insensitive exact match,
returning the matched vocabulary member; when no such line exists, when the
candidate matches no member, and on every failure outcome, it returns the
sentinel `"Uncategorized"` — the result is always a present string, never an
absent value or an escaping failure. -/
theorem get_category_classifier (o : Nat → ReqOutcome) :
    (∃ c, (get_category o).result = some c ∧ (c ∈ categories ∨ c = "Uncategorized")) ∧
    (∀ resp, o 0 = .success resp →
      (get_category o).result = some (parse_category_response resp)) ∧
    (∀ s, parse_category_response (some s) =
      (if s = "" then "Uncategorized"
       else
        match (splitlines s).find?
            (fun l => pyStartsWith (pyLower (pyStrip l)) "category:") with
        | none => "Uncategorized"
        | some line => resolveCategory (pyStrip (afterFirstColon line)))) ∧
    (∀ cand, resolveCategory cand = "Uncategorized" ∨
      (resolveCategory cand ∈ categories ∧
        pyLower (resolveCategory cand) = pyLower cand)) := by
  refine ⟨cat_loop_result_some o 0 2, ?_, ?_, resolveCategory_cases⟩
  · intro resp h
    simp [get_category, get_category_loop, h]
  · intro s
    rw [parse_category_response]
    by_cases hs : s = ""
    · rw [if_pos hs, if_pos hs]
    · rw [if_neg hs, if_neg hs]
      exact parse_category_lines_eq_find (splitlines s)

/-- C6 counterexample: on the category path a Timeout is followed by a
5-time-unit pause (not 1), and a non-timeout, non-connection error
(BackendError) is not retried at all — the call is abandoned after 1 attempt
with the sentinel, instead of being retried like a Timeout. -/
theorem get_category_retry_counterexample :
    (get_category (fun n => if n = 0 then .timeout
        else .success (some "CATEGORY: Network"))).sleeps = [5] ∧
    ([5] : List Nat) ≠ [1] ∧
    get_category (fun n => if n = 0 then .otherError "boom"
        else .success (some "CATEGORY: Network")) =
      ⟨some "Uncategorized", [60], []⟩ := by
  refine ⟨by decide, by decide, by decide⟩

/-- C6 (amended): on the single-shot category-lookup path, the backend call
is attempted up to 3 times total, each attempt under its own 60-time-unit
timeout; only a Timeout leads to a further attempt, with a 5-time-unit pause
before it; an Unreachable outcome or any other error abandons the call
immediately (one attempt, sentinel result). -/
theorem get_category_retry_policy (o : Nat → ReqOutcome) :
    (get_category o).calls.length ≤ 3 ∧
    (get_category o).calls = List.replicate (get_category o).calls.length 60 ∧
    (get_category o).sleeps =
      List.replicate ((get_category o).calls.length - 1) 5 ∧
    (∀ i, i + 1 < (get_category o).calls.length → o i = .timeout) ∧
    (o 0 = .connectionError → get_category o = ⟨some "Uncategorized", [60], []⟩) ∧
    (∀ msg, o 0 = .otherError msg →
      get_category o = ⟨some "Uncategorized", [60], []⟩) := by
  refine ⟨cat_loop_calls_le o 0 3, cat_loop_calls_eq o 0 3, cat_loop_sleeps_eq o 0 3,
    ?_, ?_, ?_⟩
  · intro i hi
    simp only [get_category] at hi
    exact cat_loop_pre_timeout o 0 3 i (Nat.zero_le i) (by omega)
  · intro h
    simp [get_category, get_category_loop, h]
  · intro msg h
    simp [get_category, get_category_loop, h]

/-- C7 counterexample: `get_solution` does not retry.  With a backend that
times out on the first attempt and would answer on the second, the source
returns the timeout error string after exactly one attempt, while the
retried lookup the claim describes would make a second attempt and return
the solution. -/
theorem get_solution_no_retry :
    get_solution (fun n => if n = 0 then .timeout
        else .success (some "SOLUTION: Restart router")) =
      ⟨"Error: Request timed out. Please check if Ollama server is running.",
        [60], []⟩ ∧
    get_solution_spec_retry (fun n => if n = 0 then .timeout
        else .success (some "SOLUTION: Restart router")) =
      ⟨some "Restart router", [60, 60], []⟩ := by
  refine ⟨by decide, by decide⟩

/-- C7 (amended): the solo-solution lookup issues exactly one request per
invocation, under a single 60-time-unit timeout, and its outcome depends
only on that first attempt; every failure is absorbed into an error-string
return value (the function is total), never an escaping exception. -/
theorem get_solution_single_attempt (o oo : Nat → ReqOutcome) (h : o 0 = oo 0) :
    get_solution o = get_solution oo ∧ (get_solution o).calls = [60] := by
  constructor
  · unfold get_solution
    rw [h]
  · unfold get_solution
    cases o 0 <;> rfl

/-- Witness for `get_solution_single_attempt` at a concrete oracle pair. -/
theorem get_solution_single_attempt_witness :
    get_solution (fun _ => .timeout) =
        get_solution (fun n => if n = 0 then .timeout else .connectionError) ∧
      (get_solution (fun _ => .timeout)).calls = [60] :=
  get_solution_single_attempt _ _ rfl

/-- C8: The decision list of `find_similar_tickets` projects, id and
description, to a sublist of the snapshot: decisions appear in the
original enumeration order of the snapshot (the order the backend calls were
issued), never reordered by score. -/
theorem find_similar_order (oracle : Nat → Option String)
    (snapshot : List (String × String)) :
    (((find_similar_tickets oracle snapshot).1).map
        (fun d => (d.id, d.description))).Sublist snapshot := by
  unfold find_similar_tickets
  by_cases hs : snapshot = []
  · subst hs
    simp
  · rw [if_neg hs]
    have h := filterMap_decide_sublist oracle snapshot.enum
    rwa [List.enum_map_snd] at h

/-- C9: An `add_ticket` call whose identifier already exists in the store
reports failure (returns `false`) and leaves the store unchanged. -/
theorem add_ticket_duplicate (store : List Ticket)
    (ticket_id description model category solution timestamp : String)
    (h : ∃ t ∈ store, t.id = ticket_id) :
    add_ticket store ticket_id description model category solution timestamp =
      (false, store) := by
  obtain ⟨t, htmem, hid⟩ := h
  have hany : store.any (fun t => t.id == ticket_id) = true :=
    List.any_eq_true.mpr ⟨t, htmem, by simp [hid]⟩
  simp [add_ticket, hany]

/-- Witness for `add_ticket_duplicate` at a concrete store. -/
theorem add_ticket_duplicate_witness :
    (∃ t ∈ [(⟨"T1", "d", "m", "c", "s", "ts", 1⟩ : Ticket)], t.id = "T1") ∧
    add_ticket [⟨"T1", "d", "m", "c", "s", "ts", 1⟩] "T1" "d2" "m2" "c2" "s2" "ts2" =
      (false, [⟨"T1", "d", "m", "c", "s", "ts", 1⟩]) :=
  ⟨⟨⟨"T1", "d", "m", "c", "s", "ts", 1⟩, by simp, rfl⟩,
    add_ticket_duplicate _ _ _ _ _ _ _
      ⟨⟨"T1", "d", "m", "c", "s", "ts", 1⟩, by simp, rfl⟩⟩

/-- C10: When a solo-solution reply is non-empty but no line of it begins
with `SOLUTION:`, `get_solution` returns the whole reply stripped of
surrounding whitespace, not an absent value or an error. -/
theorem get_solution_fallback_whole_reply (s : String) (h1 : s ≠ "")
    (h2 : ∀ l ∈ splitlines s, pyStartsWith l "SOLUTION:" = false) :
    (get_solution (fun _ => .success (some s))).result = pyStrip s := by
  show extract_solution (some s) = pyStrip s
  have hfind : (splitlines s).find? (fun l => pyStartsWith l "SOLUTION:") = none :=
    List.find?_eq_none.mpr (fun l hl => by simp [h2 l hl])
  simp [extract_solution, h1, hfind]

/-- Witness for `get_solution_fallback_whole_reply` at a concrete reply. -/
theorem get_solution_fallback_whole_reply_witness :
    ("The answer is 42.\nTry rebooting." ≠ "" ∧
      (∀ l ∈ splitlines "The answer is 42.\nTry rebooting.",
        pyStartsWith l "SOLUTION:" = false)) ∧
    (get_solution (fun _ => .success (some "The answer is 42.\nTry rebooting."))).result =
      pyStrip "The answer is 42.\nTry rebooting." :=
  ⟨⟨by decide, by decide⟩,
    get_solution_fallback_whole_reply _ (by decide) (by decide)⟩

end TicketAnalyzer
